import Mathlib

/-
  Verification of the page-object layer of a mobile-web streaming test suite.

  The development shallowly embeds the Python source:
  - `src/pages/search_page.py`: the bounded retry loop `select_stream_from_results`
    over a dynamically populating channel list;
  - `src/pages/base_page.py`: bounded-wait primitives (`get_element`,
    `check_if_element_exists`, `click_element`, `click_web_element`,
    `wait_for_element_visible`, `wait_for_element_invisible`,
    `wait_for_script_condition`);
  - `src/pages/home_page.py` / `src/pages/stream_page.py`: the banner handlers
    and the two-stage stream readiness wait;
  - `src/config/browser_config.py`, `src/config/settings.py`,
    `src/tests/conftest.py`: browser selection.

  Exceptions are modelled with an explicit error type; the browser session is
  modelled as an abstract page state together with oracle functions saying which
  bounded waits succeed within their timeout.  Each scroll is the only mutation
  performed by the retry loop, so the search-results DOM is modelled as a
  function from the number of scrolls performed so far to the currently
  rendered channel list, together with an oracle saying whether each
  `scroll_to_bottom` call's loading-spinner wait settles in time (when it does
  not, its TimeoutException propagates out of the retry loop).
-/

/-- Selenium exceptions relevant to the embedded code paths. -/
inductive Exc where
  | timeoutException
  | noSuchElementException
  | otherException
deriving DecidableEq, Repr

/-- Locator strategies used by the repository (all locators are CSS selectors). -/
inductive By where
  | css_selector
deriving DecidableEq, Repr

/-- A locator is a (strategy, selector-string) pair, as in the Python tuples. -/
abbrev Locator := By × String

/- ----------------------------------------------------------------
   Search page: `SearchPage.select_stream_from_results`
   ---------------------------------------------------------------- -/

/-- One entry of the fetched channel-results list
(`find_elements(SearchPageLocators.channels_list)`).
`hasLiveBadge` records whether `channel.find_element(*live_stream_option)`
succeeds (the element contains a live-badge sub-element) rather than raising
`NoSuchElementException`; `becomesClickable` records whether the element
becomes displayed and enabled within the default timeout, which is the
condition `click_web_element` waits for before clicking. -/
structure Channel where
  hasLiveBadge : Bool
  becomesClickable : Bool
deriving DecidableEq, Repr

/-- `BasePage.click_web_element`: wait until the element is displayed and
enabled within `implicit_wait`; on success perform the click, otherwise the
wait raises `TimeoutException`. -/
def click_web_element (c : Channel) : Except Exc Unit :=
  if c.becomesClickable then Except.ok () else Except.error Exc.timeoutException

/-- Outcome of one round of the inner `for channel in channels` scan. -/
inductive ScanResult where
  | clicked (i : Nat)
  | clickTimeout (i : Nat)
  | noneFound
deriving DecidableEq, Repr

/-- The inner scan of `select_stream_from_results`: walk the fetched list in
order; for each element probe for the live badge (a failed probe raises
`NoSuchElementException`, caught by the `except ... continue`); at the first
element whose probe succeeds, call `click_web_element` and stop.  A click-wait
timeout propagates (the `try` catches only `NoSuchElementException`). -/
def scanRound : List Channel → ScanResult
  | [] => ScanResult.noneFound
  | c :: rest =>
    if c.hasLiveBadge then
      match click_web_element c with
      | Except.ok _ => ScanResult.clicked 0
      | Except.error _ => ScanResult.clickTimeout 0
    else
      match scanRound rest with
      | ScanResult.clicked i => ScanResult.clicked (i + 1)
      | ScanResult.clickTimeout i => ScanResult.clickTimeout (i + 1)
      | ScanResult.noneFound => ScanResult.noneFound

/-- Final outcome of `select_stream_from_results`. -/
inductive SelectResult where
  /-- Returned normally after clicking element `i` of the list fetched in
  round `r` (both 0-based). -/
  | selected (r i : Nat)
  /-- `click_web_element`'s displayed-and-enabled wait timed out on element
  `i` of round `r`; the `TimeoutException` propagates out. -/
  | timeoutError (r i : Nat)
  /-- `wait_for_loading_spinner` timed out inside the `scroll_to_bottom` call
  made after round `r`; the `TimeoutException` propagates out. -/
  | scrollTimeout (r : Nat)
  /-- `raise Exception(f"No live streamers found after {max_attempts} attempts.")`. -/
  | noLiveStream (attempts : Nat)
deriving DecidableEq, Repr

/-- Observable trace of one run of `select_stream_from_results`:
`clicks` lists the `(round, index)` of every `element.click()` actually
dispatched, `scrolls` counts `scroll_to_bottom` calls made (a call whose
loading-spinner wait times out is counted, and ends the run), `rounds` counts
the rounds whose `find_elements` fetch executed, and `fetched` lists the
scroll-counts at which each fetch was made (in order). -/
structure SelectTrace where
  clicks : List (Nat × Nat)
  scrolls : Nat
  rounds : Nat
  fetched : List Nat
  result : SelectResult
deriving DecidableEq, Repr

/-- `BasePage.scroll_to_bottom`: execute the `window.scrollTo` script (always
succeeds), then `wait_for_loading_spinner` — a bounded invisibility wait on
the loading-spinner locator with the default timeout that raises
`TimeoutException` when the spinner stays visible.  `spin k` says whether the
spinner settles in time after the `k`-th scroll call (0-based). -/
def scroll_to_bottom (spin : Nat → Bool) (k : Nat) : Except Exc Unit :=
  if spin k then Except.ok () else Except.error Exc.timeoutException

/-- The `for attempt in range(max_attempts)` loop of
`select_stream_from_results`, with `remaining` iterations left; `dom scrolls`
is the channel list a fetch sees after `scrolls` scroll side effects.  After
a round with no live match, `scroll_to_bottom()` runs only when attempts
remain (`attempt < max_attempts - 1`); a spinner-wait timeout inside that
call propagates out of the loop (no handler catches it); falling out of the
loop without a click raises the no-live-streamers exception. -/
def selectAux (dom : Nat → List Channel) (spin : Nat → Bool)
    (maxAttempts : Nat) : Nat → Nat → Nat → SelectTrace
  | 0, _, scrolls =>
    { clicks := [], scrolls := scrolls, rounds := 0, fetched := [],
      result := SelectResult.noLiveStream maxAttempts }
  | remaining + 1, attempt, scrolls =>
    match scanRound (dom scrolls) with
    | ScanResult.clicked i =>
      { clicks := [(attempt, i)], scrolls := scrolls, rounds := 1,
        fetched := [scrolls], result := SelectResult.selected attempt i }
    | ScanResult.clickTimeout i =>
      { clicks := [], scrolls := scrolls, rounds := 1,
        fetched := [scrolls], result := SelectResult.timeoutError attempt i }
    | ScanResult.noneFound =>
      if attempt < maxAttempts - 1 then
        match scroll_to_bottom spin scrolls with
        | Except.ok _ =>
          let rest := selectAux dom spin maxAttempts remaining (attempt + 1)
            (scrolls + 1)
          { clicks := rest.clicks, scrolls := rest.scrolls,
            rounds := rest.rounds + 1, fetched := scrolls :: rest.fetched,
            result := rest.result }
        | Except.error _ =>
          { clicks := [], scrolls := scrolls + 1, rounds := 1,
            fetched := [scrolls], result := SelectResult.scrollTimeout attempt }
      else
        let rest := selectAux dom spin maxAttempts remaining (attempt + 1)
          scrolls
        { clicks := rest.clicks, scrolls := rest.scrolls,
          rounds := rest.rounds + 1, fetched := scrolls :: rest.fetched,
          result := rest.result }

/-- `SearchPage.select_stream_from_results`: up to `max_attempts = 3` rounds
starting with no scrolls performed. -/
def select_stream_from_results (dom : Nat → List Channel)
    (spin : Nat → Bool) : SelectTrace :=
  selectAux dom spin 3 3 0 0

/-- A channel entry with no live badge. -/
def offlineChannel : Channel := { hasLiveBadge := false, becomesClickable := true }

/-- A live channel entry that becomes clickable in time. -/
def liveChannel : Channel := { hasLiveBadge := true, becomesClickable := true }

/-- A live channel entry that never becomes displayed-and-enabled in time. -/
def liveStuckChannel : Channel := { hasLiveBadge := true, becomesClickable := false }

/-- Results list `[offline, offline, live]`, unchanged by scrolling. -/
def domOffOffLive : Nat → List Channel :=
  fun _ => [offlineChannel, offlineChannel, liveChannel]

/-- A single live-but-never-clickable result in every round. -/
def domStuckLive : Nat → List Channel :=
  fun _ => [liveStuckChannel]

/-- No live element in the first two rounds; after two scrolls the list's
only element is live but never becomes clickable. -/
def domLiveLateStuck : Nat → List Channel :=
  fun k => if k < 2 then [offlineChannel] else [liveStuckChannel]

/-- No live element in the first two rounds; after two scrolls the list's
only element is live and clickable. -/
def domLiveLate : Nat → List Channel :=
  fun k => if k < 2 then [offlineChannel] else [liveChannel]

/-- Channel lists that never contain a live element. -/
def domNeverLive : Nat → List Channel :=
  fun _ => [offlineChannel]

/-- A live, never-clickable element present from round 0 on. -/
def domStuckLiveEarly : Nat → List Channel :=
  fun _ => [offlineChannel, liveStuckChannel]

/-- A session where every loading-spinner wait settles in time. -/
def spinAlwaysSettles : Nat → Bool := fun _ => true

/-- A session where the loading spinner never disappears in time, so every
`scroll_to_bottom` call raises. -/
def spinNeverSettles : Nat → Bool := fun _ => false

/- ----------------------------------------------------------------
   Base page interaction layer (`src/pages/base_page.py`)
   ---------------------------------------------------------------- -/

/-- `settings.DEFAULT_WAIT_TIMEOUT` (seconds): the default of the environment
variable lookup. -/
def DEFAULT_WAIT_TIMEOUT : Nat := 5

/-- `BasePage.implicit_wait`, set in `__init__` to `DEFAULT_WAIT_TIMEOUT`. -/
def implicit_wait : Nat := DEFAULT_WAIT_TIMEOUT

/-- Observable side effects and waits issued by page operations. -/
inductive PageAction where
  | click (loc : Locator)
  | waitInvisible (loc : Locator)
  | waitVisible (loc : Locator)
  | waitScript (script : String)
deriving DecidableEq, Repr

/-- Oracle for the browser session, over an abstract page state `D`: for each
bounded wait issued to `WebDriverWait(driver, t)`, whether its condition holds
within `t` seconds from state `d`, and the state reached by clicking an
element found by a locator.  Waiting does not change the page state; a click
may. -/
structure Behavior (D : Type) where
  visibleWithin : Nat → D → Locator → Bool
  clickableWithin : Nat → D → Locator → Bool
  invisibleWithin : Nat → D → Locator → Bool
  scriptTrueWithin : Nat → D → String → Bool
  clickEffect : D → Locator → D

/-- `BasePage.get_element`: `WebDriverWait(driver, implicit_wait).until(
visibility_of_element_located(locator))`; raises `TimeoutException` when no
visible match appears within the default timeout. -/
def get_element {D : Type} (b : Behavior D) (d : D) (loc : Locator) :
    Except Exc Unit :=
  if b.visibleWithin implicit_wait d loc then Except.ok ()
  else Except.error Exc.timeoutException

/-- `BasePage.check_if_element_exists`: call `get_element` inside
`try ... except (NoSuchElementException, TimeoutException): return False`;
any other exception would propagate. -/
def check_if_element_exists {D : Type} (b : Behavior D) (d : D)
    (loc : Locator) : Except Exc Bool :=
  match get_element b d loc with
  | Except.ok _ => Except.ok true
  | Except.error Exc.noSuchElementException => Except.ok false
  | Except.error Exc.timeoutException => Except.ok false
  | Except.error e => Except.error e

/-- The wait bound computed by `timeout = timeout or self.implicit_wait` in
`BasePage.click_element`: `None` and the falsy `0` both fall back to
`implicit_wait`. -/
def click_element_timeout_bound (timeout : Option Nat) : Nat :=
  match timeout with
  | none => implicit_wait
  | some v => if v = 0 then implicit_wait else v

/-- `BasePage.click_element`: wait for `element_to_be_clickable(locator)`
within the computed bound, then click; the wait raises `TimeoutException`
when it expires. -/
def click_element {D : Type} (b : Behavior D) (d : D) (loc : Locator)
    (timeout : Option Nat) : Except Exc Unit × D × List PageAction :=
  if b.clickableWithin (click_element_timeout_bound timeout) d loc then
    (Except.ok (), b.clickEffect d loc, [PageAction.click loc])
  else
    (Except.error Exc.timeoutException, d, [])

/-- `BasePage.wait_for_element_visible`: visibility wait with the default
timeout and no override parameter. -/
def wait_for_element_visible {D : Type} (b : Behavior D) (d : D)
    (loc : Locator) : Except Exc Unit :=
  if b.visibleWithin implicit_wait d loc then Except.ok ()
  else Except.error Exc.timeoutException

/-- `BasePage.wait_for_element_invisible`: invisibility wait with the default
timeout and no override parameter. -/
def wait_for_element_invisible {D : Type} (b : Behavior D) (d : D)
    (loc : Locator) : Except Exc Unit :=
  if b.invisibleWithin implicit_wait d loc then Except.ok ()
  else Except.error Exc.timeoutException

/-- `BasePage.wait_for_script_condition`: re-execute the injected script until
truthy, bounded by the default timeout, no override parameter. -/
def wait_for_script_condition {D : Type} (b : Behavior D) (d : D)
    (script : String) : Except Exc Unit :=
  if b.scriptTrueWithin implicit_wait d script then Except.ok ()
  else Except.error Exc.timeoutException

/- ----------------------------------------------------------------
   Banner handlers (`home_page.py`, `stream_page.py`)
   ---------------------------------------------------------------- -/

/-- `HomePageLocators.btn_accept_cookies`. -/
def btn_accept_cookies : Locator :=
  (By.css_selector, "[data-a-target=\x27consent-banner-accept\x27]")

/-- `StreamPageLocators.btn_accept_video`. -/
def btn_accept_video : Locator :=
  (By.css_selector, "button[data-a-target*=\x27start-watching-button\x27]")

/-- `StreamPageLocators.stream_live`. -/
def stream_live : Locator := (By.css_selector, "video")

/-- Body of `HomePage.handle_cookies_banner`, parametrised by the locator it
operates on: probe existence; if present, `click_element` (default timeout)
and then `wait_for_element_invisible`. -/
def handle_cookies_banner_at {D : Type} (b : Behavior D) (loc : Locator)
    (d : D) : Except Exc Unit × D × List PageAction :=
  match check_if_element_exists b d loc with
  | Except.ok true =>
    match click_element b d loc none with
    | (Except.ok _, d2, tr) =>
      match wait_for_element_invisible b d2 loc with
      | Except.ok _ => (Except.ok (), d2, tr ++ [PageAction.waitInvisible loc])
      | Except.error e => (Except.error e, d2, tr ++ [PageAction.waitInvisible loc])
    | (Except.error e, d2, tr) => (Except.error e, d2, tr)
  | Except.ok false => (Except.ok (), d, [])
  | Except.error e => (Except.error e, d, [])

/-- `HomePage.handle_cookies_banner` at its own locator. -/
def handle_cookies_banner {D : Type} (b : Behavior D) (d : D) :
    Except Exc Unit × D × List PageAction :=
  handle_cookies_banner_at b btn_accept_cookies d

/-- Body of `StreamPage.handle_video_banner`, parametrised by the locator:
probe existence; if present, `click_element` — and nothing more (no
invisibility wait in the source). -/
def handle_video_banner_at {D : Type} (b : Behavior D) (loc : Locator)
    (d : D) : Except Exc Unit × D × List PageAction :=
  match check_if_element_exists b d loc with
  | Except.ok true => click_element b d loc none
  | Except.ok false => (Except.ok (), d, [])
  | Except.error e => (Except.error e, d, [])

/-- `StreamPage.handle_video_banner` at its own locator. -/
def handle_video_banner {D : Type} (b : Behavior D) (d : D) :
    Except Exc Unit × D × List PageAction :=
  handle_video_banner_at b btn_accept_video d

/-- The injected script of `StreamPage.wait_to_load_stream`, built from the
selector component of `stream_live` exactly as the Python f-string does. -/
def ready_state_script : String :=
  "return document.querySelector(\x27" ++ stream_live.2 ++ "\x27).readyState >= 3"

/-- `StreamPage.wait_to_load_stream`: wait for the video element to be
visible, then wait for the injected ready-state script to become truthy;
each stage uses the default timeout and can raise `TimeoutException`. -/
def wait_to_load_stream {D : Type} (b : Behavior D) (d : D) :
    Except Exc Unit × List PageAction :=
  match wait_for_element_visible b d stream_live with
  | Except.error e => (Except.error e, [PageAction.waitVisible stream_live])
  | Except.ok _ =>
    match wait_for_script_condition b d ready_state_script with
    | Except.error e =>
      (Except.error e,
        [PageAction.waitVisible stream_live, PageAction.waitScript ready_state_script])
    | Except.ok _ =>
      (Except.ok (),
        [PageAction.waitVisible stream_live, PageAction.waitScript ready_state_script])

/-- A session state at which the banner is visible and clickable but never
becomes invisible after the click; the page state is trivial. -/
def bannerStaysBehavior : Behavior Unit :=
  { visibleWithin := fun _ _ _ => true
    clickableWithin := fun _ _ _ => true
    invisibleWithin := fun _ _ _ => false
    scriptTrueWithin := fun _ _ _ => true
    clickEffect := fun d _ => d }

/-- A session state at which the banner is visible, clickable and disappears
after the click. -/
def bannerGoesBehavior : Behavior Unit :=
  { visibleWithin := fun _ _ _ => true
    clickableWithin := fun _ _ _ => true
    invisibleWithin := fun _ _ _ => true
    scriptTrueWithin := fun _ _ _ => true
    clickEffect := fun d _ => d }

/-- A session state at which no locator ever matches a visible element. -/
def nothingVisibleBehavior : Behavior Unit :=
  { visibleWithin := fun _ _ _ => false
    clickableWithin := fun _ _ _ => false
    invisibleWithin := fun _ _ _ => true
    scriptTrueWithin := fun _ _ _ => false
    clickEffect := fun d _ => d }

/- ----------------------------------------------------------------
   Browser selection (`browser_config.py`, `settings.py`, `conftest.py`)
   ---------------------------------------------------------------- -/

/-- The two WebDriver classes the factory can instantiate. -/
inductive DriverType where
  | chrome
  | edge
deriving DecidableEq, Repr

/-- `settings.SUPPORTED_BROWSERS`. -/
def SUPPORTED_BROWSERS : List String := ["Chrome", "Edge"]

/-- `browser_config.create_driver`: the first component lists the driver
sessions actually constructed (in order); the second is the returned driver or
the raised unsupported-browser exception.  The `Headless Chrome` branch is
commented out in the source, so only `Chrome` and `Edge` construct anything. -/
def create_driver (browser_name : String) :
    List DriverType × Except String DriverType :=
  if browser_name = "Chrome" then
    ([DriverType.chrome], Except.ok DriverType.chrome)
  else if browser_name = "Edge" then
    ([DriverType.edge], Except.ok DriverType.edge)
  else
    ([], Except.error ("Browser \"" ++ browser_name ++
      "\" is not supported. Supported browsers: Chrome, Edge, Headless Chrome"))

/-- The `driver` fixture `get_driver` of `conftest.py`: reject a browser not
in `SUPPORTED_BROWSERS` before calling `create_driver`; the Bool records
whether `create_driver` was called. -/
def get_driver (browser : String) :
    Bool × List DriverType × Except String DriverType :=
  if browser ∉ SUPPORTED_BROWSERS then
    (false, [],
      Except.error ("Browser \x27" ++ browser ++
        "\x27 not supported; supported Browsers: [\x27Chrome\x27, \x27Edge\x27]"))
  else
    let r := create_driver browser
    (true, r.1, r.2)

/- ----------------------------------------------------------------
   Helper lemmas about the inner scan
   ---------------------------------------------------------------- -/

theorem scanRound_noneFound_of (cs : List Channel)
    (h : ∀ c ∈ cs, c.hasLiveBadge = false) :
    scanRound cs = ScanResult.noneFound := by
  induction cs with
  | nil => simp [scanRound]
  | cons c rest ih =>
    have hc : c.hasLiveBadge = false := h c (List.mem_cons_self c rest)
    have hrest : scanRound rest = ScanResult.noneFound :=
      ih (fun x hx => h x (List.mem_cons_of_mem c hx))
    simp [scanRound, hc, hrest]

theorem noLive_of_scanRound_noneFound (cs : List Channel)
    (h : scanRound cs = ScanResult.noneFound) :
    ∀ c ∈ cs, c.hasLiveBadge = false := by
  induction cs with
  | nil => simp
  | cons c rest ih =>
    cases hl : c.hasLiveBadge with
    | true =>
      cases hcc : c.becomesClickable <;>
        simp [scanRound, hl, click_web_element, hcc] at h
    | false =>
      cases hr : scanRound rest with
      | clicked i => simp [scanRound, hl, hr] at h
      | clickTimeout i => simp [scanRound, hl, hr] at h
      | noneFound =>
        intro x hx
        rcases List.mem_cons.mp hx with hx | hx
        · subst hx; exact hl
        · exact ih hr x hx

theorem scanRound_clicked_spec (cs : List Channel) (i : Nat)
    (h : scanRound cs = ScanResult.clicked i) :
    ∃ c, cs[i]? = some c ∧ c.hasLiveBadge = true ∧ c.becomesClickable = true
      ∧ ∀ j, j < i → ∀ cj, cs[j]? = some cj → cj.hasLiveBadge = false := by
  induction cs generalizing i with
  | nil => simp [scanRound] at h
  | cons c rest ih =>
    cases hl : c.hasLiveBadge with
    | true =>
      cases hcc : c.becomesClickable with
      | true =>
        simp [scanRound, hl, click_web_element, hcc] at h
        subst h
        exact ⟨c, by simp, hl, hcc, fun j hj => absurd hj (Nat.not_lt_zero j)⟩
      | false =>
        simp [scanRound, hl, click_web_element, hcc] at h
    | false =>
      cases hr : scanRound rest with
      | clicked k =>
        simp [scanRound, hl, hr] at h
        subst h
        obtain ⟨c2, hget, hlive, hclick, hfirst⟩ := ih k hr
        refine ⟨c2, by simpa using hget, hlive, hclick, ?_⟩
        intro j hj cj hcj
        cases j with
        | zero =>
          simp at hcj
          subst hcj
          exact hl
        | succ j2 =>
          exact hfirst j2 (Nat.lt_of_succ_lt_succ hj) cj (by simpa using hcj)
      | clickTimeout k => simp [scanRound, hl, hr] at h
      | noneFound => simp [scanRound, hl, hr] at h

theorem scanRound_clickTimeout_spec (cs : List Channel) (i : Nat)
    (h : scanRound cs = ScanResult.clickTimeout i) :
    ∃ c, cs[i]? = some c ∧ c.hasLiveBadge = true ∧ c.becomesClickable = false
      ∧ ∀ j, j < i → ∀ cj, cs[j]? = some cj → cj.hasLiveBadge = false := by
  induction cs generalizing i with
  | nil => simp [scanRound] at h
  | cons c rest ih =>
    cases hl : c.hasLiveBadge with
    | true =>
      cases hcc : c.becomesClickable with
      | true =>
        simp [scanRound, hl, click_web_element, hcc] at h
      | false =>
        simp [scanRound, hl, click_web_element, hcc] at h
        subst h
        exact ⟨c, by simp, hl, hcc, fun j hj => absurd hj (Nat.not_lt_zero j)⟩
    | false =>
      cases hr : scanRound rest with
      | clicked k => simp [scanRound, hl, hr] at h
      | clickTimeout k =>
        simp [scanRound, hl, hr] at h
        subst h
        obtain ⟨c2, hget, hlive, hclick, hfirst⟩ := ih k hr
        refine ⟨c2, by simpa using hget, hlive, hclick, ?_⟩
        intro j hj cj hcj
        cases j with
        | zero =>
          simp at hcj
          subst hcj
          exact hl
        | succ j2 =>
          exact hfirst j2 (Nat.lt_of_succ_lt_succ hj) cj (by simpa using hcj)
      | noneFound => simp [scanRound, hl, hr] at h

theorem scanRound_clicked_of (cs : List Channel) (i : Nat) (c : Channel)
    (h1 : cs[i]? = some c) (h2 : c.hasLiveBadge = true)
    (h3 : c.becomesClickable = true)
    (h4 : ∀ j, j < i → ∀ cj, cs[j]? = some cj → cj.hasLiveBadge = false) :
    scanRound cs = ScanResult.clicked i := by
  induction cs generalizing i with
  | nil => simp at h1
  | cons c0 rest ih =>
    cases i with
    | zero =>
      simp at h1
      subst h1
      simp [scanRound, h2, click_web_element, h3]
    | succ k =>
      have h0 : c0.hasLiveBadge = false := by
        have := h4 0 (Nat.succ_pos k) c0 (by simp)
        exact this
      have hrest : scanRound rest = ScanResult.clicked k := by
        refine ih k (by simpa using h1) ?_
        intro j hj cj hcj
        exact h4 (j + 1) (Nat.succ_lt_succ hj) cj (by simpa using hcj)
      simp [scanRound, h0, hrest]

/- ----------------------------------------------------------------
   Unfolding the three-round loop
   ---------------------------------------------------------------- -/

theorem select_unfold (dom : Nat → List Channel) (spin : Nat → Bool) :
    select_stream_from_results dom spin =
      match scanRound (dom 0) with
      | ScanResult.clicked i =>
        { clicks := [(0, i)], scrolls := 0, rounds := 1, fetched := [0],
          result := SelectResult.selected 0 i }
      | ScanResult.clickTimeout i =>
        { clicks := [], scrolls := 0, rounds := 1, fetched := [0],
          result := SelectResult.timeoutError 0 i }
      | ScanResult.noneFound =>
        if spin 0 then
          match scanRound (dom 1) with
          | ScanResult.clicked i =>
            { clicks := [(1, i)], scrolls := 1, rounds := 2, fetched := [0, 1],
              result := SelectResult.selected 1 i }
          | ScanResult.clickTimeout i =>
            { clicks := [], scrolls := 1, rounds := 2, fetched := [0, 1],
              result := SelectResult.timeoutError 1 i }
          | ScanResult.noneFound =>
            if spin 1 then
              match scanRound (dom 2) with
              | ScanResult.clicked i =>
                { clicks := [(2, i)], scrolls := 2, rounds := 3,
                  fetched := [0, 1, 2], result := SelectResult.selected 2 i }
              | ScanResult.clickTimeout i =>
                { clicks := [], scrolls := 2, rounds := 3,
                  fetched := [0, 1, 2], result := SelectResult.timeoutError 2 i }
              | ScanResult.noneFound =>
                { clicks := [], scrolls := 2, rounds := 3,
                  fetched := [0, 1, 2], result := SelectResult.noLiveStream 3 }
            else
              { clicks := [], scrolls := 2, rounds := 2, fetched := [0, 1],
                result := SelectResult.scrollTimeout 1 }
        else
          { clicks := [], scrolls := 1, rounds := 1, fetched := [0],
            result := SelectResult.scrollTimeout 0 } := by
  cases h0 : scanRound (dom 0) <;> cases hs0 : spin 0 <;>
    cases h1 : scanRound (dom 1) <;> cases hs1 : spin 1 <;>
      cases h2 : scanRound (dom 2) <;>
        simp [select_stream_from_results, selectAux, scroll_to_bottom,
          h0, hs0, h1, hs1, h2]

theorem forall_lt_three {P : Nat → Prop} :
    (∀ r, r < 3 → P r) ↔ P 0 ∧ P 1 ∧ P 2 := by
  constructor
  · intro h
    exact ⟨h 0 (by omega), h 1 (by omega), h 2 (by omega)⟩
  · rintro ⟨h0, h1, h2⟩ r hr
    interval_cases r <;> assumption

/- ----------------------------------------------------------------
   Claim theorems
   ---------------------------------------------------------------- -/

/-- Claim C1: on every successful run of `select_stream_from_results` exactly
one element is clicked — the element clicked is the first element of the
round's fetched list whose live-badge probe succeeded, no earlier element of
that list had a successful probe, and every earlier round's list contained no
live element at all. -/
theorem select_first_live_clicked (dom : Nat → List Channel)
    (spin : Nat → Bool) (r i : Nat)
    (h : (select_stream_from_results dom spin).result
      = SelectResult.selected r i) :
    (select_stream_from_results dom spin).clicks = [(r, i)]
    ∧ (∃ c, (dom r)[i]? = some c ∧ c.hasLiveBadge = true)
    ∧ (∀ j, j < i → ∀ cj, (dom r)[j]? = some cj → cj.hasLiveBadge = false)
    ∧ (∀ q, q < r → ∀ c ∈ dom q, c.hasLiveBadge = false) := by
  have hu := select_unfold dom spin
  rcases h0 : scanRound (dom 0) with i0 | i0 | _
  · simp only [h0] at hu
    rw [hu] at h
    simp only [SelectResult.selected.injEq] at h
    obtain ⟨hr, hi⟩ := h
    subst hr
    subst hi
    obtain ⟨c, hget, hlive, _, hfirst⟩ := scanRound_clicked_spec (dom 0) _ h0
    exact ⟨by rw [hu], ⟨c, hget, hlive⟩, hfirst, fun q hq => absurd hq (by omega)⟩
  · simp only [h0] at hu
    rw [hu] at h
    simp at h
  · cases hs0 : spin 0 with
    | false =>
      simp [h0, hs0] at hu
      rw [hu] at h
      simp at h
    | true =>
      rcases h1 : scanRound (dom 1) with i1 | i1 | _
      · simp [h0, hs0, h1] at hu
        rw [hu] at h
        simp only [SelectResult.selected.injEq] at h
        obtain ⟨hr, hi⟩ := h
        subst hr
        subst hi
        obtain ⟨c, hget, hlive, _, hfirst⟩ := scanRound_clicked_spec (dom 1) _ h1
        refine ⟨by rw [hu], ⟨c, hget, hlive⟩, hfirst, ?_⟩
        intro q hq
        interval_cases q
        exact noLive_of_scanRound_noneFound (dom 0) h0
      · simp [h0, hs0, h1] at hu
        rw [hu] at h
        simp at h
      · cases hs1 : spin 1 with
        | false =>
          simp [h0, hs0, h1, hs1] at hu
          rw [hu] at h
          simp at h
        | true =>
          rcases h2 : scanRound (dom 2) with i2 | i2 | _
          · simp [h0, hs0, h1, hs1, h2] at hu
            rw [hu] at h
            simp only [SelectResult.selected.injEq] at h
            obtain ⟨hr, hi⟩ := h
            subst hr
            subst hi
            obtain ⟨c, hget, hlive, _, hfirst⟩ :=
              scanRound_clicked_spec (dom 2) _ h2
            refine ⟨by rw [hu], ⟨c, hget, hlive⟩, hfirst, ?_⟩
            intro q hq
            interval_cases q
            · exact noLive_of_scanRound_noneFound (dom 0) h0
            · exact noLive_of_scanRound_noneFound (dom 1) h1
          · simp [h0, hs0, h1, hs1, h2] at hu
            rw [hu] at h
            simp at h
          · simp [h0, hs0, h1, hs1, h2] at hu
            rw [hu] at h
            simp at h

/-- Witness for C1, the round-trip scenario: on the results list
`[offline, offline, live]` the third element (index 2) is selected in the
first round with no scroll, and is the only click. -/
theorem select_first_live_clicked_witness :
    (select_stream_from_results domOffOffLive spinAlwaysSettles).result
      = SelectResult.selected 0 2
    ∧ (select_stream_from_results domOffOffLive spinAlwaysSettles).scrolls = 0
    ∧ (select_stream_from_results domOffOffLive spinAlwaysSettles).clicks
      = [(0, 2)] :=
  ⟨rfl, rfl,
    (select_first_live_clicked domOffOffLive spinAlwaysSettles 0 2 rfl).1⟩

/-- Counterexample to C2 as stated, in two parts.  First, in round 0 the list
holds an element whose live-badge probe succeeds, yet the run does not return
normally — the displayed-and-enabled wait of `click_web_element` times out
and the `TimeoutException` propagates (result `timeoutError`).  Second, the
iff fails in the other direction as well: with no live element in any round
but a loading spinner that never settles, the first `scroll_to_bottom` call's
spinner wait raises, so the run aborts with a propagated `TimeoutException`
and the no-live-stream error is never raised. -/
theorem live_match_can_raise_timeout_cex :
    domStuckLive 0 = [liveStuckChannel]
    ∧ liveStuckChannel.hasLiveBadge = true
    ∧ (select_stream_from_results domStuckLive spinAlwaysSettles).result
        = SelectResult.timeoutError 0 0
    ∧ (∀ r, r < 3 → ∀ c ∈ domNeverLive r, c.hasLiveBadge = false)
    ∧ (select_stream_from_results domNeverLive spinNeverSettles).result
        = SelectResult.scrollTimeout 0 := by
  decide

/-- Claim C2 (amended): `select_stream_from_results` executes at most 3
rounds; it raises the no-live-stream error, whose attempt count is 3, iff no
round's list contained an element with a successful live-badge probe and the
loading-spinner waits of both intervening `scroll_to_bottom` calls settled in
time (a spinner-wait timeout instead aborts the run with a propagated
TimeoutError); and on a round with a live match it never raises the
no-live-stream error (it either returns normally or propagates the click
wait's TimeoutError). -/
theorem select_no_live_error_iff (dom : Nat → List Channel)
    (spin : Nat → Bool) :
    (select_stream_from_results dom spin).rounds ≤ 3
    ∧ ((select_stream_from_results dom spin).result
          = SelectResult.noLiveStream 3 ↔
        spin 0 = true ∧ spin 1 = true
        ∧ ∀ r, r < 3 → ∀ c ∈ dom r, c.hasLiveBadge = false)
    ∧ (∀ n, (select_stream_from_results dom spin).result
          = SelectResult.noLiveStream n → n = 3)
    ∧ (∀ r, r < 3 → (∃ c ∈ dom r, c.hasLiveBadge = true) →
        (select_stream_from_results dom spin).result
          ≠ SelectResult.noLiveStream 3) := by
  have hu := select_unfold dom spin
  have hnotall : ∀ q, q < 3 → scanRound (dom q) ≠ ScanResult.noneFound →
      ¬(∀ r, r < 3 → ∀ c ∈ dom r, c.hasLiveBadge = false) := by
    intro q hq hne hall
    exact hne (scanRound_noneFound_of (dom q) (hall q hq))
  rcases h0 : scanRound (dom 0) with i0 | i0 | _
  · simp only [h0] at hu
    rw [hu]
    refine ⟨by simp, ⟨fun hc => absurd hc (by simp),
      fun hall => absurd hall.2.2 (hnotall 0 (by omega) (by simp [h0]))⟩,
      by simp, fun r hr hex hc => absurd hc (by simp)⟩
  · simp only [h0] at hu
    rw [hu]
    refine ⟨by simp, ⟨fun hc => absurd hc (by simp),
      fun hall => absurd hall.2.2 (hnotall 0 (by omega) (by simp [h0]))⟩,
      by simp, fun r hr hex hc => absurd hc (by simp)⟩
  · cases hs0 : spin 0 with
    | false =>
      simp [h0, hs0] at hu
      rw [hu]
      refine ⟨by simp, ⟨fun hc => absurd hc (by simp),
        fun hall => absurd hall.1 (by simp)⟩,
        by simp, fun r hr hex hc => absurd hc (by simp)⟩
    | true =>
      rcases h1 : scanRound (dom 1) with i1 | i1 | _
      · simp [h0, hs0, h1] at hu
        rw [hu]
        refine ⟨by simp, ⟨fun hc => absurd hc (by simp),
          fun hall => absurd hall.2.2 (hnotall 1 (by omega) (by simp [h1]))⟩,
          by simp, fun r hr hex hc => absurd hc (by simp)⟩
      · simp [h0, hs0, h1] at hu
        rw [hu]
        refine ⟨by simp, ⟨fun hc => absurd hc (by simp),
          fun hall => absurd hall.2.2 (hnotall 1 (by omega) (by simp [h1]))⟩,
          by simp, fun r hr hex hc => absurd hc (by simp)⟩
      · cases hs1 : spin 1 with
        | false =>
          simp [h0, hs0, h1, hs1] at hu
          rw [hu]
          refine ⟨by simp, ⟨fun hc => absurd hc (by simp),
            fun hall => absurd hall.2.1 (by simp)⟩,
            by simp, fun r hr hex hc => absurd hc (by simp)⟩
        | true =>
          rcases h2 : scanRound (dom 2) with i2 | i2 | _
          · simp [h0, hs0, h1, hs1, h2] at hu
            rw [hu]
            refine ⟨by simp, ⟨fun hc => absurd hc (by simp),
              fun hall => absurd hall.2.2
                (hnotall 2 (by omega) (by simp [h2]))⟩,
              by simp, fun r hr hex hc => absurd hc (by simp)⟩
          · simp [h0, hs0, h1, hs1, h2] at hu
            rw [hu]
            refine ⟨by simp, ⟨fun hc => absurd hc (by simp),
              fun hall => absurd hall.2.2
                (hnotall 2 (by omega) (by simp [h2]))⟩,
              by simp, fun r hr hex hc => absurd hc (by simp)⟩
          · simp [h0, hs0, h1, hs1, h2] at hu
            rw [hu]
            have hall : ∀ r, r < 3 → ∀ c ∈ dom r, c.hasLiveBadge = false := by
              rw [forall_lt_three]
              exact ⟨noLive_of_scanRound_noneFound (dom 0) h0,
                noLive_of_scanRound_noneFound (dom 1) h1,
                noLive_of_scanRound_noneFound (dom 2) h2⟩
            refine ⟨by simp, ⟨fun _ => ⟨rfl, rfl, hall⟩, fun _ => rfl⟩, ?_, ?_⟩
            · intro n hn
              simp only [SelectResult.noLiveStream.injEq] at hn
              omega
            · intro r hr hex _
              obtain ⟨c, hc, hlive⟩ := hex
              have hfalse := hall r hr c hc
              rw [hlive] at hfalse
              exact absurd hfalse (by simp)

/-- Witness for C2: on channel lists that never contain a live element, with
every spinner wait settling, the run executes at most 3 rounds and ends with
the no-live-stream error carrying attempt count 3. -/
theorem select_no_live_error_iff_witness :
    (select_stream_from_results domNeverLive spinAlwaysSettles).rounds ≤ 3
    ∧ (select_stream_from_results domNeverLive spinAlwaysSettles).result
        = SelectResult.noLiveStream 3 := by
  have h := select_no_live_error_iff domNeverLive spinAlwaysSettles
  exact ⟨h.1, h.2.1.mpr (by decide)⟩

/-- Counterexample to C3 as stated, in two parts.  First, rounds 1 and 2 see
no live element and after two scrolls a live element is present, yet the run
does not select it — the matched element never becomes clickable, so after
scrolling exactly twice the run ends with a propagated TimeoutError instead
of a selection.  Second, with the same no-live-then-live lists but a loading
spinner that never settles, the first `scroll_to_bottom` call raises, so the
run makes only one scroll call and never reaches round 3. -/
theorem scroll_scenario_timeout_cex :
    (∀ c ∈ domLiveLateStuck 0, c.hasLiveBadge = false)
    ∧ (∀ c ∈ domLiveLateStuck 1, c.hasLiveBadge = false)
    ∧ (∃ c ∈ domLiveLateStuck 2, c.hasLiveBadge = true)
    ∧ (select_stream_from_results domLiveLateStuck spinAlwaysSettles).scrolls = 2
    ∧ (select_stream_from_results domLiveLateStuck spinAlwaysSettles).result
        = SelectResult.timeoutError 2 0
    ∧ (select_stream_from_results domLiveLate spinNeverSettles).result
        = SelectResult.scrollTimeout 0
    ∧ (select_stream_from_results domLiveLate spinNeverSettles).scrolls = 1 := by
  decide

/-- Claim C3 (amended): the run makes one `scroll_to_bottom` call after each
round that found no live element except the final one (so at most 2 calls:
2 on no-live-stream failure, `r` when the run ends in round `r` by selection
or click-wait timeout, and `r + 1` counting the aborted call when the spinner
wait of the scroll after round `r` times out), and re-fetches the channel
list at the start of every round (one fetch per executed round, at the
current scroll count); when no live element appears in the first two rounds,
both scroll calls' spinner waits settle, and the first live element of the
after-two-scrolls list becomes clickable in time, the run scrolls exactly
twice and selects it in round 3. -/
theorem select_scroll_accounting (dom : Nat → List Channel)
    (spin : Nat → Bool) :
    (select_stream_from_results dom spin).scrolls ≤ 2
    ∧ ((select_stream_from_results dom spin).result
          = SelectResult.noLiveStream 3 →
        (select_stream_from_results dom spin).scrolls = 2
        ∧ (select_stream_from_results dom spin).rounds = 3)
    ∧ (∀ r i, ((select_stream_from_results dom spin).result
            = SelectResult.selected r i
          ∨ (select_stream_from_results dom spin).result
            = SelectResult.timeoutError r i) →
        (select_stream_from_results dom spin).scrolls = r
        ∧ (select_stream_from_results dom spin).rounds = r + 1)
    ∧ (∀ r, (select_stream_from_results dom spin).result
          = SelectResult.scrollTimeout r →
        (select_stream_from_results dom spin).scrolls = r + 1
        ∧ (select_stream_from_results dom spin).rounds = r + 1)
    ∧ (select_stream_from_results dom spin).fetched
        = List.range (select_stream_from_results dom spin).rounds
    ∧ (∀ i c, (dom 2)[i]? = some c → c.hasLiveBadge = true →
        c.becomesClickable = true → spin 0 = true → spin 1 = true →
        (∀ c0 ∈ dom 0, c0.hasLiveBadge = false) →
        (∀ c1 ∈ dom 1, c1.hasLiveBadge = false) →
        (∀ j, j < i → ∀ cj, (dom 2)[j]? = some cj → cj.hasLiveBadge = false) →
        (select_stream_from_results dom spin).result
          = SelectResult.selected 2 i
        ∧ (select_stream_from_results dom spin).scrolls = 2) := by
  have hu := select_unfold dom spin
  have scenario : ∀ i c, (dom 2)[i]? = some c → c.hasLiveBadge = true →
      c.becomesClickable = true → spin 0 = true → spin 1 = true →
      (∀ c0 ∈ dom 0, c0.hasLiveBadge = false) →
      (∀ c1 ∈ dom 1, c1.hasLiveBadge = false) →
      (∀ j, j < i → ∀ cj, (dom 2)[j]? = some cj → cj.hasLiveBadge = false) →
      (select_stream_from_results dom spin).result = SelectResult.selected 2 i
      ∧ (select_stream_from_results dom spin).scrolls = 2 := by
    intro i c hget hlive hclick hsp0 hsp1 hall0 hall1 hfirst
    have h0 := scanRound_noneFound_of (dom 0) hall0
    have h1 := scanRound_noneFound_of (dom 1) hall1
    have h2 := scanRound_clicked_of (dom 2) i c hget hlive hclick hfirst
    simp [h0, h1, h2, hsp0, hsp1] at hu
    rw [hu]
    exact ⟨rfl, rfl⟩
  rcases h0 : scanRound (dom 0) with i0 | i0 | _
  · simp only [h0] at hu
    rw [hu] at scenario
    rw [hu]
    refine ⟨by simp, fun hx => absurd hx (by simp), ?_,
      by intro q hq; simp at hq, by simp [List.range_succ], scenario⟩
    intro r i hri
    rcases hri with hri | hri
    · simp only [SelectResult.selected.injEq] at hri
      obtain ⟨hr, _⟩ := hri
      subst hr
      exact ⟨rfl, rfl⟩
    · simp at hri
  · simp only [h0] at hu
    rw [hu] at scenario
    rw [hu]
    refine ⟨by simp, fun hx => absurd hx (by simp), ?_,
      by intro q hq; simp at hq, by simp [List.range_succ], scenario⟩
    intro r i hri
    rcases hri with hri | hri
    · simp at hri
    · simp only [SelectResult.timeoutError.injEq] at hri
      obtain ⟨hr, _⟩ := hri
      subst hr
      exact ⟨rfl, rfl⟩
  · cases hs0 : spin 0 with
    | false =>
      simp [h0, hs0] at hu
      rw [hu] at scenario
      rw [hu]
      refine ⟨by simp, fun hx => absurd hx (by simp), ?_, ?_,
        by simp [List.range_succ], fun i c _ _ _ habs => absurd habs (by simp)⟩
      · intro r i hri
        rcases hri with hri | hri
        · simp at hri
        · simp at hri
      · intro q hq
        simp only [SelectResult.scrollTimeout.injEq] at hq
        subst hq
        exact ⟨rfl, rfl⟩
    | true =>
      rcases h1 : scanRound (dom 1) with i1 | i1 | _
      · simp [h0, hs0, h1] at hu
        rw [hu] at scenario
        rw [hu]
        refine ⟨by simp, fun hx => absurd hx (by simp), ?_,
          by intro q hq; simp at hq, by simp [List.range_succ], fun i c hget hlive hclick _ hsp1 hall0 hall1 hfirst =>
        scenario i c hget hlive hclick hs0 hsp1 hall0 hall1 hfirst⟩
        intro r i hri
        rcases hri with hri | hri
        · simp only [SelectResult.selected.injEq] at hri
          obtain ⟨hr, _⟩ := hri
          subst hr
          exact ⟨rfl, rfl⟩
        · simp at hri
      · simp [h0, hs0, h1] at hu
        rw [hu] at scenario
        rw [hu]
        refine ⟨by simp, fun hx => absurd hx (by simp), ?_,
          by intro q hq; simp at hq, by simp [List.range_succ], fun i c hget hlive hclick _ hsp1 hall0 hall1 hfirst =>
        scenario i c hget hlive hclick hs0 hsp1 hall0 hall1 hfirst⟩
        intro r i hri
        rcases hri with hri | hri
        · simp at hri
        · simp only [SelectResult.timeoutError.injEq] at hri
          obtain ⟨hr, _⟩ := hri
          subst hr
          exact ⟨rfl, rfl⟩
      · cases hs1 : spin 1 with
        | false =>
          simp [h0, hs0, h1, hs1] at hu
          rw [hu] at scenario
          rw [hu]
          refine ⟨by simp, fun hx => absurd hx (by simp), ?_, ?_,
            by simp [List.range_succ], fun i c _ _ _ _ habs => absurd habs (by simp)⟩
          · intro r i hri
            rcases hri with hri | hri
            · simp at hri
            · simp at hri
          · intro q hq
            simp only [SelectResult.scrollTimeout.injEq] at hq
            subst hq
            exact ⟨rfl, rfl⟩
        | true =>
          rcases h2 : scanRound (dom 2) with i2 | i2 | _
          · simp [h0, hs0, h1, hs1, h2] at hu
            rw [hu] at scenario
            rw [hu]
            refine ⟨by simp, fun hx => absurd hx (by simp), ?_,
              by intro q hq; simp at hq, by simp [List.range_succ], fun i c hget hlive hclick _ _ hall0 hall1 hfirst =>
            scenario i c hget hlive hclick hs0 hs1 hall0 hall1 hfirst⟩
            intro r i hri
            rcases hri with hri | hri
            · simp only [SelectResult.selected.injEq] at hri
              obtain ⟨hr, _⟩ := hri
              subst hr
              exact ⟨rfl, rfl⟩
            · simp at hri
          · simp [h0, hs0, h1, hs1, h2] at hu
            rw [hu] at scenario
            rw [hu]
            refine ⟨by simp, fun hx => absurd hx (by simp), ?_,
              by intro q hq; simp at hq, by simp [List.range_succ], fun i c hget hlive hclick _ _ hall0 hall1 hfirst =>
            scenario i c hget hlive hclick hs0 hs1 hall0 hall1 hfirst⟩
            intro r i hri
            rcases hri with hri | hri
            · simp at hri
            · simp only [SelectResult.timeoutError.injEq] at hri
              obtain ⟨hr, _⟩ := hri
              subst hr
              exact ⟨rfl, rfl⟩
          · simp [h0, hs0, h1, hs1, h2] at hu
            rw [hu] at scenario
            rw [hu]
            refine ⟨by simp, fun _ => ⟨rfl, rfl⟩, ?_,
              by intro q hq; simp at hq, by simp [List.range_succ], fun i c hget hlive hclick _ _ hall0 hall1 hfirst =>
            scenario i c hget hlive hclick hs0 hs1 hall0 hall1 hfirst⟩
            intro r i hri
            rcases hri with hri | hri
            · simp at hri
            · simp at hri

/-- Witness for C3: with no live element before two scrolls, every spinner
wait settling, and a clickable live element appearing after the second
scroll, the run scrolls exactly twice and selects that element in round 3
(round index 2). -/
theorem select_scroll_accounting_witness :
    (select_stream_from_results domLiveLate spinAlwaysSettles).result
      = SelectResult.selected 2 0
    ∧ (select_stream_from_results domLiveLate spinAlwaysSettles).scrolls = 2 := by
  have h := select_scroll_accounting domLiveLate spinAlwaysSettles
  exact h.2.2.2.2.2 0 liveChannel (by decide) (by decide) (by decide)
    (by decide) (by decide) (by decide) (by decide) (by decide)

/-- Claim C10: a channel element is clicked only after `click_web_element`'s
bounded displayed-and-enabled wait succeeded on it, and when the run ends with
a propagated TimeoutError the matched element had a successful live-badge
probe but never became displayed-and-enabled, and no click was dispatched. -/
theorem click_after_clickable_check (dom : Nat → List Channel)
    (spin : Nat → Bool) :
    (∀ r i, (select_stream_from_results dom spin).result
        = SelectResult.timeoutError r i →
      (select_stream_from_results dom spin).clicks = []
      ∧ ∃ c, (dom r)[i]? = some c ∧ c.hasLiveBadge = true
          ∧ c.becomesClickable = false
          ∧ click_web_element c = Except.error Exc.timeoutException)
    ∧ (∀ r i, (r, i) ∈ (select_stream_from_results dom spin).clicks →
      ∃ c, (dom r)[i]? = some c ∧ c.becomesClickable = true
          ∧ click_web_element c = Except.ok ()) := by
  have hu := select_unfold dom spin
  rcases h0 : scanRound (dom 0) with i0 | i0 | _
  · simp only [h0] at hu
    rw [hu]
    constructor
    · intro r i hri
      simp at hri
    · intro r i hri
      simp at hri
      obtain ⟨hr, hi⟩ := hri
      subst hr
      subst hi
      obtain ⟨c, hget, _, hclick, _⟩ := scanRound_clicked_spec (dom 0) _ h0
      exact ⟨c, hget, hclick, by simp [click_web_element, hclick]⟩
  · simp only [h0] at hu
    rw [hu]
    constructor
    · intro r i hri
      simp only [SelectResult.timeoutError.injEq] at hri
      obtain ⟨hr, hi⟩ := hri
      subst hr
      subst hi
      obtain ⟨c, hget, hlive, hclick, _⟩ :=
        scanRound_clickTimeout_spec (dom 0) _ h0
      exact ⟨rfl, c, hget, hlive, hclick, by simp [click_web_element, hclick]⟩
    · intro r i hri
      simp at hri
  · cases hs0 : spin 0 with
    | false =>
      simp [h0, hs0] at hu
      rw [hu]
      constructor
      · intro r i hri
        simp at hri
      · intro r i hri
        simp at hri
    | true =>
      rcases h1 : scanRound (dom 1) with i1 | i1 | _
      · simp [h0, hs0, h1] at hu
        rw [hu]
        constructor
        · intro r i hri
          simp at hri
        · intro r i hri
          simp at hri
          obtain ⟨hr, hi⟩ := hri
          subst hr
          subst hi
          obtain ⟨c, hget, _, hclick, _⟩ := scanRound_clicked_spec (dom 1) _ h1
          exact ⟨c, hget, hclick, by simp [click_web_element, hclick]⟩
      · simp [h0, hs0, h1] at hu
        rw [hu]
        constructor
        · intro r i hri
          simp only [SelectResult.timeoutError.injEq] at hri
          obtain ⟨hr, hi⟩ := hri
          subst hr
          subst hi
          obtain ⟨c, hget, hlive, hclick, _⟩ :=
            scanRound_clickTimeout_spec (dom 1) _ h1
          exact ⟨rfl, c, hget, hlive, hclick,
            by simp [click_web_element, hclick]⟩
        · intro r i hri
          simp at hri
      · cases hs1 : spin 1 with
        | false =>
          simp [h0, hs0, h1, hs1] at hu
          rw [hu]
          constructor
          · intro r i hri
            simp at hri
          · intro r i hri
            simp at hri
        | true =>
          rcases h2 : scanRound (dom 2) with i2 | i2 | _
          · simp [h0, hs0, h1, hs1, h2] at hu
            rw [hu]
            constructor
            · intro r i hri
              simp at hri
            · intro r i hri
              simp at hri
              obtain ⟨hr, hi⟩ := hri
              subst hr
              subst hi
              obtain ⟨c, hget, _, hclick, _⟩ :=
                scanRound_clicked_spec (dom 2) _ h2
              exact ⟨c, hget, hclick, by simp [click_web_element, hclick]⟩
          · simp [h0, hs0, h1, hs1, h2] at hu
            rw [hu]
            constructor
            · intro r i hri
              simp only [SelectResult.timeoutError.injEq] at hri
              obtain ⟨hr, hi⟩ := hri
              subst hr
              subst hi
              obtain ⟨c, hget, hlive, hclick, _⟩ :=
                scanRound_clickTimeout_spec (dom 2) _ h2
              exact ⟨rfl, c, hget, hlive, hclick,
                by simp [click_web_element, hclick]⟩
            · intro r i hri
              simp at hri
          · simp [h0, hs0, h1, hs1, h2] at hu
            rw [hu]
            constructor
            · intro r i hri
              simp at hri
            · intro r i hri
              simp at hri

/-- Witness for C10: a live match exists in round 0 (at index 1) but never
becomes displayed-and-enabled, so the run dispatches no click and the wait of
`click_web_element` raises the propagated TimeoutError. -/
theorem click_after_clickable_check_witness :
    (select_stream_from_results domStuckLiveEarly spinAlwaysSettles).clicks = []
    ∧ ∃ c, (domStuckLiveEarly 0)[1]? = some c ∧ c.hasLiveBadge = true
        ∧ c.becomesClickable = false
        ∧ click_web_element c = Except.error Exc.timeoutException :=
  (click_after_clickable_check domStuckLiveEarly spinAlwaysSettles).1 0 1 rfl

/-- Claim C4: `check_if_element_exists` never raises: for every locator it
returns `false` exactly when no matching visible element appears within the
default timeout (the caught NotFound/Timeout branch), and `true` when a
matching visible element is found. -/
theorem check_element_never_raises {D : Type} (b : Behavior D) (d : D)
    (loc : Locator) :
    check_if_element_exists b d loc
      = Except.ok (b.visibleWithin implicit_wait d loc) := by
  cases h : b.visibleWithin implicit_wait d loc <;>
    simp [check_if_element_exists, get_element, h]

/-- Witness for C4 at a concrete session: with nothing visible the probe
returns `false` without raising. -/
theorem check_element_never_raises_witness :
    check_if_element_exists nothingVisibleBehavior () btn_accept_cookies
      = Except.ok false :=
  check_element_never_raises nothingVisibleBehavior () btn_accept_cookies

/-- Counterexample to C5 as stated: at the same locator and the same session
state (banner visible and clickable but never disappearing after the click),
the two handlers produce different outcomes — the cookies handler issues the
invisibility wait and propagates its timeout, while the video handler returns
normally without that wait.  So they are not equal as functions of the
session state up to the locator used. -/
theorem video_banner_differs_cex :
    handle_video_banner_at bannerStaysBehavior btn_accept_cookies ()
      ≠ handle_cookies_banner_at bannerStaysBehavior btn_accept_cookies () := by
  have hv : handle_video_banner_at bannerStaysBehavior btn_accept_cookies ()
      = (Except.ok (), (), [PageAction.click btn_accept_cookies]) := rfl
  have hc : handle_cookies_banner_at bannerStaysBehavior btn_accept_cookies ()
      = (Except.error Exc.timeoutException, (),
         [PageAction.click btn_accept_cookies,
          PageAction.waitInvisible btn_accept_cookies]) := rfl
  intro h
  rw [hv, hc] at h
  exact Except.noConfusion (congrArg Prod.fst h)

/-- Claim C5 (amended): both handlers perform the same probe-existence and
click-if-present prefix — same page-state effect, equal outcomes when the
probe fails or the click wait times out — but after a dispatched click the
cookies handler additionally waits for the element to become invisible while
the video handler returns immediately. -/
theorem banner_dismiss_relationship {D : Type} (b : Behavior D)
    (loc : Locator) (d : D) :
    (handle_video_banner_at b loc d).2.1 = (handle_cookies_banner_at b loc d).2.1
    ∧ (b.visibleWithin implicit_wait d loc = false →
        handle_video_banner_at b loc d = handle_cookies_banner_at b loc d
        ∧ handle_video_banner_at b loc d = (Except.ok (), d, []))
    ∧ (b.visibleWithin implicit_wait d loc = true →
        b.clickableWithin implicit_wait d loc = false →
        handle_video_banner_at b loc d = handle_cookies_banner_at b loc d
        ∧ handle_video_banner_at b loc d
            = (Except.error Exc.timeoutException, d, []))
    ∧ (b.visibleWithin implicit_wait d loc = true →
        b.clickableWithin implicit_wait d loc = true →
        handle_video_banner_at b loc d
          = (Except.ok (), b.clickEffect d loc, [PageAction.click loc])
        ∧ handle_cookies_banner_at b loc d
          = ((if b.invisibleWithin implicit_wait (b.clickEffect d loc) loc
              then Except.ok () else Except.error Exc.timeoutException),
             b.clickEffect d loc,
             [PageAction.click loc, PageAction.waitInvisible loc])) := by
  cases hv : b.visibleWithin implicit_wait d loc <;>
    cases hc : b.clickableWithin implicit_wait d loc <;>
      cases hi : b.invisibleWithin implicit_wait (b.clickEffect d loc) loc <;>
        simp [handle_video_banner_at, handle_cookies_banner_at,
          check_if_element_exists, get_element, click_element,
          click_element_timeout_bound, wait_for_element_invisible, hv, hc, hi]

/-- Witness for C5 at a concrete session where the banner is present,
clickable and disappears: the video handler clicks and returns; the cookies
handler clicks, waits for invisibility, and returns. -/
theorem banner_dismiss_relationship_witness :
    handle_video_banner_at bannerGoesBehavior btn_accept_video ()
      = (Except.ok (), (), [PageAction.click btn_accept_video])
    ∧ handle_cookies_banner_at bannerGoesBehavior btn_accept_video ()
      = (Except.ok (), (),
         [PageAction.click btn_accept_video,
          PageAction.waitInvisible btn_accept_video]) := by
  have h := (banner_dismiss_relationship bannerGoesBehavior
    btn_accept_video ()).2.2.2 rfl rfl
  exact ⟨h.1, h.2.trans rfl⟩

/-- Claim C6: when their target locator matches no visible element within the
default timeout, `handle_cookies_banner` and `handle_video_banner` dispatch
no click, return normally, leave the page state unchanged, and running either
again in the resulting state changes nothing. -/
theorem banner_noop_when_absent {D : Type} (b : Behavior D) (d : D)
    (hck : b.visibleWithin implicit_wait d btn_accept_cookies = false)
    (hvd : b.visibleWithin implicit_wait d btn_accept_video = false) :
    handle_cookies_banner b d = (Except.ok (), d, [])
    ∧ handle_video_banner b d = (Except.ok (), d, [])
    ∧ handle_cookies_banner b (handle_cookies_banner b d).2.1
        = handle_cookies_banner b d
    ∧ handle_video_banner b (handle_video_banner b d).2.1
        = handle_video_banner b d := by
  have h1 : handle_cookies_banner b d = (Except.ok (), d, []) := by
    simp [handle_cookies_banner, handle_cookies_banner_at,
      check_if_element_exists, get_element, hck]
  have h2 : handle_video_banner b d = (Except.ok (), d, []) := by
    simp [handle_video_banner, handle_video_banner_at,
      check_if_element_exists, get_element, hvd]
  refine ⟨h1, h2, ?_, ?_⟩
  · rw [h1]
    exact h1
  · rw [h2]
    exact h2

/-- Witness for C6 at a concrete session with no visible elements: both
handlers are no-ops. -/
theorem banner_noop_when_absent_witness :
    handle_cookies_banner nothingVisibleBehavior () = (Except.ok (), (), [])
    ∧ handle_video_banner nothingVisibleBehavior () = (Except.ok (), (), []) := by
  have h := banner_noop_when_absent nothingVisibleBehavior () rfl rfl
  exact ⟨h.1, h.2.1⟩

/-- Claim C7: `wait_to_load_stream` is a two-stage readiness check in order:
it waits for the video element to be visible and only then waits for the
injected script checking `readyState >= 3`; it returns normally iff both
waits succeed, each stage failing with a timeout otherwise (on a first-stage
timeout the script wait is never issued). -/
theorem wait_to_load_stream_two_stage {D : Type} (b : Behavior D) (d : D) :
    ((wait_to_load_stream b d).1 = Except.ok () ↔
      b.visibleWithin implicit_wait d stream_live = true
      ∧ b.scriptTrueWithin implicit_wait d ready_state_script = true)
    ∧ (b.visibleWithin implicit_wait d stream_live = false →
        wait_to_load_stream b d
          = (Except.error Exc.timeoutException,
             [PageAction.waitVisible stream_live]))
    ∧ (b.visibleWithin implicit_wait d stream_live = true →
        b.scriptTrueWithin implicit_wait d ready_state_script = false →
        wait_to_load_stream b d
          = (Except.error Exc.timeoutException,
             [PageAction.waitVisible stream_live,
              PageAction.waitScript ready_state_script]))
    ∧ (b.visibleWithin implicit_wait d stream_live = true →
        b.scriptTrueWithin implicit_wait d ready_state_script = true →
        wait_to_load_stream b d
          = (Except.ok (),
             [PageAction.waitVisible stream_live,
              PageAction.waitScript ready_state_script]))
    ∧ ready_state_script
        = "return document.querySelector(\x27video\x27).readyState >= 3" := by
  refine ⟨?_, ?_, ?_, ?_, rfl⟩ <;>
    cases hv : b.visibleWithin implicit_wait d stream_live <;>
      cases hs : b.scriptTrueWithin implicit_wait d ready_state_script <;>
        simp [wait_to_load_stream, wait_for_element_visible,
          wait_for_script_condition, hv, hs]

/-- Witness for C7 at a concrete session where both stages succeed: the run
returns normally with the visibility wait issued before the script wait. -/
theorem wait_to_load_stream_two_stage_witness :
    wait_to_load_stream bannerGoesBehavior ()
      = (Except.ok (),
         [PageAction.waitVisible stream_live,
          PageAction.waitScript ready_state_script]) :=
  (wait_to_load_stream_two_stage bannerGoesBehavior ()).2.2.2.1 rfl rfl

/-- Claim C8: for every browser name other than `Chrome` and `Edge` the
unsupported-browser exception is raised before any driver session is
constructed, both by `create_driver` itself and by the `driver` fixture,
which rejects names outside `SUPPORTED_BROWSERS` without calling
`create_driver`; for `Chrome` and `Edge` a driver of the corresponding type
is constructed and returned. -/
theorem unsupported_browser_fails_fast (browser : String)
    (h1 : browser ≠ "Chrome") (h2 : browser ≠ "Edge") :
    (create_driver browser).1 = []
    ∧ (∃ msg, (create_driver browser).2 = Except.error msg)
    ∧ (get_driver browser).1 = false
    ∧ (get_driver browser).2.1 = []
    ∧ (∃ msg, (get_driver browser).2.2 = Except.error msg)
    ∧ create_driver "Chrome" = ([DriverType.chrome], Except.ok DriverType.chrome)
    ∧ create_driver "Edge" = ([DriverType.edge], Except.ok DriverType.edge) := by
  have hmem : browser ∉ SUPPORTED_BROWSERS := by
    simp [SUPPORTED_BROWSERS]
    exact ⟨h1, h2⟩
  refine ⟨?_, ?_, ?_, ?_, ?_, rfl, rfl⟩ <;>
    simp [create_driver, get_driver, h1, h2, hmem]

/-- Witness for C8 at the concrete unsupported name `Firefox`: no driver is
constructed and both the factory and the fixture raise. -/
theorem unsupported_browser_fails_fast_witness :
    (create_driver "Firefox").1 = []
    ∧ (get_driver "Firefox").1 = false
    ∧ (get_driver "Firefox").2.1 = [] := by
  have h := unsupported_browser_fails_fast "Firefox" (by decide) (by decide)
  exact ⟨h.1, h.2.2.1, h.2.2.2.1⟩

/-- Counterexample to C9 as stated: a caller-supplied timeout of `0` is not
used as the wait bound — the Python `timeout or self.implicit_wait` treats
`0` as falsy, so the bound silently becomes the 5-second default. -/
theorem zero_timeout_not_used_cex :
    click_element_timeout_bound (some 0) = 5
    ∧ click_element_timeout_bound (some 0) ≠ 0 := by
  decide

/-- Claim C9 (amended): of the base-page waiting operations only
`click_element` accepts an optional timeout; its bound defaults to the
configured 5-second value for `None` and also for a supplied `0`, while any
nonzero supplied timeout is used as the wait bound; the other waiting
operations always wait with the configured default. -/
theorem click_element_timeout_default (t : Nat) (h : t ≠ 0) {D : Type}
    (b : Behavior D) (d : D) (loc : Locator) :
    click_element_timeout_bound none = DEFAULT_WAIT_TIMEOUT
    ∧ DEFAULT_WAIT_TIMEOUT = 5
    ∧ click_element_timeout_bound (some 0) = DEFAULT_WAIT_TIMEOUT
    ∧ click_element_timeout_bound (some t) = t
    ∧ (click_element b d loc (some t)).1
        = (if b.clickableWithin t d loc then Except.ok ()
           else Except.error Exc.timeoutException)
    ∧ (click_element b d loc none).1
        = (if b.clickableWithin implicit_wait d loc then Except.ok ()
           else Except.error Exc.timeoutException)
    ∧ get_element b d loc
        = (if b.visibleWithin implicit_wait d loc then Except.ok ()
           else Except.error Exc.timeoutException) := by
  have hb : click_element_timeout_bound (some t) = t := by
    simp [click_element_timeout_bound, h]
  refine ⟨rfl, rfl, rfl, hb, ?_, ?_, rfl⟩
  · cases hcl : b.clickableWithin t d loc <;>
      simp [click_element, hb, hcl]
  · cases hcl : b.clickableWithin implicit_wait d loc <;>
      simp [click_element, click_element_timeout_bound, hcl]

/-- Witness for C9 at the concrete supplied timeout 7: the bound is 7, while
`None` yields the 5-second default. -/
theorem click_element_timeout_default_witness :
    click_element_timeout_bound (some 7) = 7
    ∧ click_element_timeout_bound none = 5 := by
  have h := click_element_timeout_default 7 (by decide) bannerGoesBehavior ()
    btn_accept_cookies
  exact ⟨h.2.2.2.1, h.1.trans h.2.1⟩
